import Mathlib

/-!
Verification development for the `propostaenergiaa` repository
(`proposta.py` / `app.py`): a webhook service that derives solar-energy
subscription figures from a customer's monthly bill amount and renders a
PDF proposal with an embedded comparison chart.

Modelling conventions:
* Python floats are modelled as exact rationals (`ℚ`); the algebraic
  identities claimed by the specification are stated and proved over `ℚ`.
* Python's `round` (banker's rounding, round-half-to-even) is modelled by
  `roundHalfEven`.
* `float(s)` string parsing is modelled by `pyFloat` covering the decimal
  literal grammar `[+-]? digits [. digits] | [+-]? . digits` after
  whitespace stripping (scientific notation, `inf`/`nan` and underscore
  separators are outside the inputs this program handles and are rejected).
* Functions that raise exceptions are modelled as `Option`-valued
  functions (`none` = exception).
* External effects (matplotlib rendering, the filesystem) are modelled by
  boolean success flags in a `RenderEnv` oracle; all in-repository logic is
  translated directly from the source.
-/

/-- Python's built-in `round` on a real value: round half to even. -/
def roundHalfEven (q : ℚ) : ℤ :=
  let f := ⌊q⌋
  if q - f < 1/2 then f
  else if 1/2 < q - f then f + 1
  else if f % 2 = 0 then f else f + 1

/-- Value of a (most-significant-first) list of decimal digit characters. -/
def digitsVal (l : List Char) : ℕ :=
  l.foldl (fun a c => 10 * a + (c.toNat - 48)) 0

/-- Parse an unsigned Python float literal (list of characters):
`digits`, `digits.digits`, `digits.` or `.digits`. Returns `none` when the
string is not a valid literal (models `float(...)` raising `ValueError`). -/
def pyFloatAux (l : List Char) : Option ℚ :=
  match l.dropWhile Char.isDigit with
  | [] =>
    if l.takeWhile Char.isDigit = [] then none
    else some (digitsVal (l.takeWhile Char.isDigit) : ℚ)
  | c :: rest =>
    if c = '.' ∧ rest.all Char.isDigit ∧
        (l.takeWhile Char.isDigit ≠ [] ∨ rest ≠ []) then
      some ((digitsVal (l.takeWhile Char.isDigit) : ℚ) +
        (digitsVal rest : ℚ) / 10 ^ rest.length)
    else none

/-- Parse an optionally signed Python float literal. -/
def pyFloatSigned : List Char → Option ℚ
  | [] => none
  | c :: rest =>
    if c = '+' then pyFloatAux rest
    else if c = '-' then (pyFloatAux rest).map (fun q => -q)
    else pyFloatAux (c :: rest)

/-- Remove leading and trailing whitespace characters from a character
list (models Python `str.strip()`). -/
def stripEspacos (l : List Char) : List Char :=
  ((l.dropWhile Char.isWhitespace).reverse.dropWhile Char.isWhitespace).reverse

/-- Python `str.strip()` on a string. -/
def pyStrip (s : String) : String :=
  String.mk (stripEspacos s.toList)

/-- Model of Python `float(s)` on a string: strip surrounding whitespace,
then parse a signed decimal literal. -/
def pyFloat (s : String) : Option ℚ :=
  pyFloatSigned (stripEspacos s.toList)

/-- Characters removed by `re.sub(r'[R$\s]', '', ...)` in
`extrair_valor_monetario` (proposta.py line 46). -/
def charMonetarioRemovido (c : Char) : Bool :=
  c = 'R' ∨ c = '$' ∨ c.isWhitespace

/-- The cleaned character list `valor_limpo` of `extrair_valor_monetario`
(proposta.py line 46). -/
def limpar_monetario (s : String) : List Char :=
  s.toList.filter (fun c => !charMonetarioRemovido c)

/-- `extrair_valor_monetario` (proposta.py lines 43-50): strip `R`, `$`
and whitespace; if a comma is present replace every comma by a dot; then
`float(...)`. `none` models the `ValueError` raised by `float`. -/
def extrair_valor_monetario (s : String) : Option ℚ :=
  let valor_limpo := limpar_monetario s
  let valor_limpo2 :=
    if ',' ∈ valor_limpo then
      valor_limpo.map (fun c => if c = ',' then '.' else c)
    else valor_limpo
  pyFloatSigned valor_limpo2

/-- `TARIFA_ENERGISA` (proposta.py line 41). -/
def TARIFA_ENERGISA : ℚ := 1.138131

/-- `DESCONTO_CONTRATO` (proposta.py line 40). -/
def DESCONTO_CONTRATO : ℚ := 20.0

/-- The inline base-fee conditional of proposta.py line 71:
`92.51 if valor_fatura > 500 else (61.67 if valor_fatura > 300 else 42.90)`. -/
def taxa_base (valor_fatura : ℚ) : ℚ :=
  if 500 < valor_fatura then 92.51
  else if 300 < valor_fatura then 61.67
  else 42.90

/-- Result record of `calcular_parametros_automaticos`
(proposta.py lines 83-90). -/
structure Parametros where
  nome : String
  endereco : String
  consumo : ℤ
  taxa_iluminacao_publica : ℚ
  consumo_minimo : ℕ
  valor_fatura_original : ℚ
  deriving Repr, DecidableEq

/-- Numeric core of `calcular_parametros_automaticos`
(proposta.py lines 61-90), after `extrair_valor_monetario` has produced the
rational `valor_fatura`. -/
def calcular_parametros_valor (nome_usar endereco_usar : String)
    (valor_fatura : ℚ) : Parametros :=
  let consumo_minimo : ℕ :=
    if valor_fatura ≤ 300 then 30
    else if valor_fatura ≤ 500 then 50
    else 100
  let valor_atualizado_estimado := valor_fatura - taxa_base valor_fatura
  let consumo_estimado := valor_atualizado_estimado / TARIFA_ENERGISA
  let consumo_total : ℤ := roundHalfEven consumo_estimado
  let valor_consumo_medio_exato : ℚ := (consumo_total : ℚ) * TARIFA_ENERGISA
  let taxa_iluminacao_ajustada := valor_fatura - valor_consumo_medio_exato
  { nome := nome_usar
    endereco := endereco_usar
    consumo := consumo_total
    taxa_iluminacao_publica := taxa_iluminacao_ajustada
    consumo_minimo := consumo_minimo
    valor_fatura_original := valor_fatura }

/-- `calcular_parametros_automaticos` (proposta.py lines 52-90) for
explicitly supplied arguments (the webhook path): parse the monetary string,
then derive the parameters; `none` models the `ValueError` propagating out
of `extrair_valor_monetario`. -/
def calcular_parametros_automaticos (nome_completo endereco_completo : String)
    (valor_fatura_cliente : String) : Option Parametros :=
  (extrair_valor_monetario valor_fatura_cliente).map
    (calcular_parametros_valor nome_completo endereco_completo)

/-- Module-level variables `NOME`, `ENDERECO`, `CONSUMO`,
`TAXA_ILUMINACAO_PUBLICA`, `CONSUMO_MINIMO` (proposta.py lines 96-100),
threaded explicitly as state. -/
structure Globals where
  NOME : String
  ENDERECO : String
  CONSUMO : ℤ
  TAXA_ILUMINACAO_PUBLICA : ℚ
  CONSUMO_MINIMO : ℕ
  deriving Repr, DecidableEq

/-- Result record of `calcular_valores_financeiros`
(proposta.py lines 470-506). -/
structure Valores where
  tax_ilu_pub : ℚ
  cmc_total : ℚ
  consumo_minimo : ℚ
  desconto : ℚ
  tarifa_energisa : ℚ
  tarifa_energisa_com_desconto : ℚ
  energia_energia_a : ℚ
  valor_fatura : ℚ
  valor_total_fatura : ℚ
  valor_fatura_sem_imposto : ℚ
  fatura_distribuidora : ℚ
  fatura_geradora : ℚ
  total_fatura_energia_a : ℚ
  energia_compensada : ℚ
  consumo_minimo_energisa : ℚ
  total_sem_desconto : ℚ
  valor_desconto : ℚ
  total_com_desconto : ℚ
  total_fatura_energisa_para_pagar : ℚ
  fatura_locacao : ℚ
  total_a_pagar_CGS : ℚ
  economia_ano : ℚ
  economia_5ano : ℚ
  economia_incidencia_bandeira_amarela : ℚ
  economia_incidencia_bandeira_vermelha_patamar_1 : ℚ
  economia_incidencia_bandeira_vermelha_patamar_2 : ℚ
  economia_incidencia_bandeira_escassez_hibrida : ℚ
  economia_anual_incidencia_bandeira_amarela : ℚ
  economia_anual_incidencia_bandeira_vermelha_patamar_1 : ℚ
  economia_anual_incidencia_bandeira_vermelha_patamar_2 : ℚ
  economia_anual_incidencia_bandeira_escassez_hibrida : ℚ
  economia_5ano_incidencia_bandeira_amarela : ℚ
  economia_5ano_incidencia_bandeira_vermelha_patamar_1 : ℚ
  economia_5ano_incidencia_bandeira_vermelha_patamar_2 : ℚ
  economia_5ano_incidencia_bandeira_escassez_hibrida : ℚ

/-- The four tariff-flag surcharge rates (proposta.py lines 424-427). -/
def tarifa_bandeira_amarela : ℚ := 0.024181

/-- Red-flag level-1 surcharge rate (proposta.py line 425). -/
def tarifa_bandeira_vermelha_patamar_1 : ℚ := 0.057252

/-- Red-flag level-2 surcharge rate (proposta.py line 426). -/
def tarifa_bandeira_vermelha_patamar_2 : ℚ := 0.101047

/-- Hybrid water-scarcity surcharge rate (proposta.py line 427). -/
def tarifa_bandeira_escassez_hibrida : ℚ := 0.182160

/-- `calcular_valores_financeiros` (proposta.py lines 413-506): reads the
module-level variables, converts them to floats and computes every
financial figure of the proposal. -/
def calcular_valores_financeiros (g : Globals) : Valores :=
  let tax_ilu_pub : ℚ := g.TAXA_ILUMINACAO_PUBLICA
  let cmc_total : ℚ := (g.CONSUMO : ℚ)
  let consumo_minimo : ℚ := (g.CONSUMO_MINIMO : ℚ)
  let desconto : ℚ := DESCONTO_CONTRATO
  let tarifa_energisa := TARIFA_ENERGISA
  let tarifa_energisa_com_desconto := tarifa_energisa * (1 - desconto / 100)
  let energia_energia_a := cmc_total - consumo_minimo
  let valor_fatura := tarifa_energisa * cmc_total
  let valor_total_fatura := valor_fatura + tax_ilu_pub
  let valor_fatura_sem_imposto := tarifa_energisa * energia_energia_a
  let fatura_distribuidora := valor_total_fatura - valor_fatura_sem_imposto
  let fatura_geradora := tarifa_energisa_com_desconto * energia_energia_a
  let total_fatura_energia_a := fatura_distribuidora + fatura_geradora
  let energia_compensada := (cmc_total - consumo_minimo) * tarifa_energisa
  let consumo_minimo_energisa := consumo_minimo * tarifa_energisa
  let total_sem_desconto := valor_fatura + tax_ilu_pub
  let valor_desconto := total_sem_desconto - total_fatura_energia_a
  let total_com_desconto := (valor_fatura - valor_desconto) + tax_ilu_pub
  let total_fatura_energisa_para_pagar := valor_fatura - energia_compensada
  let fatura_locacao :=
    total_fatura_energisa_para_pagar + energia_compensada - valor_desconto
  let total_a_pagar_CGS := consumo_minimo_energisa + tax_ilu_pub
  let economia_ano := valor_desconto * 12
  let economia_5ano := economia_ano * 5
  let economia_incidencia_bandeira_amarela :=
    valor_desconto + energia_energia_a * tarifa_bandeira_amarela
  let economia_incidencia_bandeira_vermelha_patamar_1 :=
    valor_desconto + energia_energia_a * tarifa_bandeira_vermelha_patamar_1
  let economia_incidencia_bandeira_vermelha_patamar_2 :=
    valor_desconto + energia_energia_a * tarifa_bandeira_vermelha_patamar_2
  let economia_incidencia_bandeira_escassez_hibrida :=
    valor_desconto + energia_energia_a * tarifa_bandeira_escassez_hibrida
  let economia_anual_incidencia_bandeira_amarela :=
    economia_incidencia_bandeira_amarela * 12
  let economia_anual_incidencia_bandeira_vermelha_patamar_1 :=
    economia_incidencia_bandeira_vermelha_patamar_1 * 12
  let economia_anual_incidencia_bandeira_vermelha_patamar_2 :=
    economia_incidencia_bandeira_vermelha_patamar_2 * 12
  let economia_anual_incidencia_bandeira_escassez_hibrida :=
    economia_incidencia_bandeira_escassez_hibrida * 12
  let economia_5ano_incidencia_bandeira_amarela :=
    economia_anual_incidencia_bandeira_amarela * 5
  let economia_5ano_incidencia_bandeira_vermelha_patamar_1 :=
    economia_anual_incidencia_bandeira_vermelha_patamar_1 * 5
  let economia_5ano_incidencia_bandeira_vermelha_patamar_2 :=
    economia_anual_incidencia_bandeira_vermelha_patamar_2 * 5
  let economia_5ano_incidencia_bandeira_escassez_hibrida :=
    economia_anual_incidencia_bandeira_escassez_hibrida * 5
  { tax_ilu_pub := tax_ilu_pub
    cmc_total := cmc_total
    consumo_minimo := consumo_minimo
    desconto := desconto
    tarifa_energisa := tarifa_energisa
    tarifa_energisa_com_desconto := tarifa_energisa_com_desconto
    energia_energia_a := energia_energia_a
    valor_fatura := valor_fatura
    valor_total_fatura := valor_total_fatura
    valor_fatura_sem_imposto := valor_fatura_sem_imposto
    fatura_distribuidora := fatura_distribuidora
    fatura_geradora := fatura_geradora
    total_fatura_energia_a := total_fatura_energia_a
    energia_compensada := energia_compensada
    consumo_minimo_energisa := consumo_minimo_energisa
    total_sem_desconto := total_sem_desconto
    valor_desconto := valor_desconto
    total_com_desconto := total_com_desconto
    total_fatura_energisa_para_pagar := total_fatura_energisa_para_pagar
    fatura_locacao := fatura_locacao
    total_a_pagar_CGS := total_a_pagar_CGS
    economia_ano := economia_ano
    economia_5ano := economia_5ano
    economia_incidencia_bandeira_amarela := economia_incidencia_bandeira_amarela
    economia_incidencia_bandeira_vermelha_patamar_1 :=
      economia_incidencia_bandeira_vermelha_patamar_1
    economia_incidencia_bandeira_vermelha_patamar_2 :=
      economia_incidencia_bandeira_vermelha_patamar_2
    economia_incidencia_bandeira_escassez_hibrida :=
      economia_incidencia_bandeira_escassez_hibrida
    economia_anual_incidencia_bandeira_amarela :=
      economia_anual_incidencia_bandeira_amarela
    economia_anual_incidencia_bandeira_vermelha_patamar_1 :=
      economia_anual_incidencia_bandeira_vermelha_patamar_1
    economia_anual_incidencia_bandeira_vermelha_patamar_2 :=
      economia_anual_incidencia_bandeira_vermelha_patamar_2
    economia_anual_incidencia_bandeira_escassez_hibrida :=
      economia_anual_incidencia_bandeira_escassez_hibrida
    economia_5ano_incidencia_bandeira_amarela :=
      economia_5ano_incidencia_bandeira_amarela
    economia_5ano_incidencia_bandeira_vermelha_patamar_1 :=
      economia_5ano_incidencia_bandeira_vermelha_patamar_1
    economia_5ano_incidencia_bandeira_vermelha_patamar_2 :=
      economia_5ano_incidencia_bandeira_vermelha_patamar_2
    economia_5ano_incidencia_bandeira_escassez_hibrida :=
      economia_5ano_incidencia_bandeira_escassez_hibrida }

/-- `ajustar_altura_visual` (proposta.py lines 219-225): visual floor for
chart bar segments — a zero segment stays zero, any other segment is
displayed no smaller than 5% of the tallest bar. -/
def ajustar_altura_visual (valor valor_maximo : ℚ) : ℚ :=
  if valor = 0 then 0
  else
    let altura_minima := valor_maximo * 0.05
    if valor < altura_minima then altura_minima
    else valor

/-- Visual-height data computed by `gerar_grafico`
(proposta.py lines 183-259) for the two stacked bars. -/
structure AlturasGrafico where
  max_value : ℚ
  altura_iluminacao : ℚ
  altura_consumo_minimo : ℚ
  altura_iluminacao_visual : ℚ
  altura_consumo_minimo_visual : ℚ
  altura_concessionaria : ℚ
  altura_concessionaria_visual : ℚ
  altura_iluminacao_2 : ℚ
  altura_consumo_minimo_2 : ℚ
  altura_iluminacao_visual_2 : ℚ
  altura_consumo_minimo_visual_2 : ℚ
  altura_energia_a : ℚ
  altura_energia_a_visual : ℚ

/-- Bar-segment computation of `gerar_grafico`
(proposta.py lines 183-259): true segment values, the 5%-floored visual
heights for the two lower segments of each bar, and the compensated top
segment of each bar. -/
def alturas_grafico (sem_geracao com_geracao consumo_minimo_energisa
    tax_ilu_pub : ℚ) : AlturasGrafico :=
  let max_value := max sem_geracao com_geracao
  let altura_iluminacao := tax_ilu_pub
  let altura_consumo_minimo := consumo_minimo_energisa
  let altura_iluminacao_visual := ajustar_altura_visual altura_iluminacao max_value
  let altura_consumo_minimo_visual :=
    ajustar_altura_visual altura_consumo_minimo max_value
  let ajuste_total := (altura_iluminacao_visual - altura_iluminacao) +
    (altura_consumo_minimo_visual - altura_consumo_minimo)
  let altura_concessionaria :=
    sem_geracao - altura_iluminacao - altura_consumo_minimo
  let altura_concessionaria_visual := altura_concessionaria - ajuste_total
  let altura_iluminacao_2 := tax_ilu_pub
  let altura_consumo_minimo_2 := consumo_minimo_energisa
  let altura_iluminacao_visual_2 :=
    ajustar_altura_visual altura_iluminacao_2 max_value
  let altura_consumo_minimo_visual_2 :=
    ajustar_altura_visual altura_consumo_minimo_2 max_value
  let ajuste_total_2 := (altura_iluminacao_visual_2 - altura_iluminacao_2) +
    (altura_consumo_minimo_visual_2 - altura_consumo_minimo_2)
  let altura_energia_a :=
    com_geracao - altura_iluminacao_2 - altura_consumo_minimo_2
  let altura_energia_a_visual := altura_energia_a - ajuste_total_2
  { max_value := max_value
    altura_iluminacao := altura_iluminacao
    altura_consumo_minimo := altura_consumo_minimo
    altura_iluminacao_visual := altura_iluminacao_visual
    altura_consumo_minimo_visual := altura_consumo_minimo_visual
    altura_concessionaria := altura_concessionaria
    altura_concessionaria_visual := altura_concessionaria_visual
    altura_iluminacao_2 := altura_iluminacao_2
    altura_consumo_minimo_2 := altura_consumo_minimo_2
    altura_iluminacao_visual_2 := altura_iluminacao_visual_2
    altura_consumo_minimo_visual_2 := altura_consumo_minimo_visual_2
    altura_energia_a := altura_energia_a
    altura_energia_a_visual := altura_energia_a_visual }

/-- Y-axis tick selection of `gerar_grafico` (proposta.py lines 191-205).
For `max_value < 300` the source computes `y_max = ceil(max/50)*50` and
`np.arange(0, y_max + 50, 50)`, i.e. the multiples of 50 from 0 to
`y_max`; for `max_value >= 600` it takes `y_max = ceil(max/100)*100` and
the seven values `i * y_max / 6`, `i = 0..6`. -/
def y_ticks (max_value : ℚ) : List ℚ :=
  if max_value < 300 then
    (List.range (⌈max_value / 50⌉ + 1).toNat).map (fun i : ℕ => (i : ℚ) * 50)
  else if max_value < 400 then
    [0, 66.50, 133.00, 200.50, 267.00, 333.50, 400.00]
  else if max_value < 600 then
    [0, 100.00, 200.00, 300.00, 400.00, 500.00, 600.00]
  else
    let y_max : ℚ := (⌈max_value / 100⌉ : ℚ) * 100
    let intervalo := y_max / 6
    (List.range 7).map (fun i : ℕ => (i : ℚ) * intervalo)

/-- Decimal digit list (most significant first) of a natural number. -/
def natDigitos (n : ℕ) : List Char := Nat.toDigits 10 n

/-- Thousands grouping on a reversed digit list: insert `,` after every
three digits, as Python's format specifier `,` does. -/
def sep3 : List Char → List Char
  | a :: b :: c :: d :: rest => a :: b :: c :: ',' :: sep3 (d :: rest)
  | l => l

/-- Python `f-string` thousands formatting of a natural number:
digits grouped in threes separated by `,`. -/
def pyMilhares (n : ℕ) : List Char := (sep3 (natDigitos n).reverse).reverse

/-- Two-digit rendering of a natural number below 100. -/
def doisDigitos (n : ℕ) : List Char :=
  [Char.ofNat (48 + n / 10 % 10), Char.ofNat (48 + n % 10)]

/-- Python `f"{x:,.2f}"` on a real value (as characters): optional minus
sign, thousands-grouped integer part, `.`, and exactly two fractional
digits, the value rounded to cents half-to-even. -/
def pyFormatMoeda (x : ℚ) : List Char :=
  let cents := (roundHalfEven (|x| * 100)).toNat
  (if x < 0 then ['-'] else []) ++
    pyMilhares (cents / 100) ++ '.' :: doisDigitos (cents % 100)

/-- `formatar_moeda` (proposta.py lines 147-153). The argument is the
result of `float(valor)`: `none` models a `ValueError`/`TypeError` from a
non-numeric argument, which the source catches, returning `"0,00"`.
Otherwise the source formats with `f"{...:,.2f}"`, swaps `,`/`.` through
the placeholder `X`, splits on `,` and reassembles the first two parts. -/
def formatar_moeda : Option ℚ → String
  | none => "0,00"
  | some x =>
    let s1 := (pyFormatMoeda x).map (fun c => if c = ',' then 'X' else c)
    let s2 := s1.map (fun c => if c = '.' then ',' else c)
    let s3 := s2.map (fun c => if c = 'X' then '.' else c)
    let parte0 := s3.takeWhile (fun c => c ≠ ',')
    let parte1 := ((s3.dropWhile (fun c => c ≠ ',')).tail).takeWhile
      (fun c => c ≠ ',')
    String.mk (parte0 ++ ',' :: parte1)

/-- Letter test of `validar_nome_completo` (proposta.py line 142): the
regex class `[a-zA-ZÀ-ÿ]`. -/
def letraNome (c : Char) : Bool :=
  ('a' ≤ c ∧ c ≤ 'z') ∨ ('A' ≤ c ∧ c ≤ 'Z') ∨ ('À' ≤ c ∧ c ≤ 'ÿ')

/-- `validar_nome_completo` (proposta.py lines 129-145): `none` models the
`ValueError` raised for an empty/short/long/letterless name, `some` the
stripped name returned. -/
def validar_nome_completo (nome : String) : Option String :=
  if nome = "" then none
  else
    let nome2 := pyStrip nome
    if nome2.length < 3 then none
    else if 100 < nome2.length then none
    else if !(nome2.toList.any letraNome) then none
    else some nome2

/-- Characters replaced by `_` in `sanitizar_nome_arquivo`
(proposta.py line 117): the regex class `[<>:"/\\|?*]`. -/
def charInvalidoArquivo (c : Char) : Bool :=
  c = '<' ∨ c = '>' ∨ c = ':' ∨ c = '"' ∨ c = '/' ∨ c = '\\' ∨
    c = '|' ∨ c = '?' ∨ c = '*'

/-- Collapse every maximal run of characters satisfying `p` into the
single character `rep` (models `re.sub(r'X+', rep, s)`); the boolean flag
tracks whether the previous character was inside a run. -/
def colapsarAux (p : Char → Bool) (rep : Char) : List Char → Bool → List Char
  | [], _ => []
  | c :: rest, emRun =>
    if p c then
      if emRun then colapsarAux p rep rest true
      else rep :: colapsarAux p rep rest true
    else c :: colapsarAux p rep rest false

/-- Collapse runs of `p`-characters to a single `rep`. -/
def colapsar (p : Char → Bool) (rep : Char) (l : List Char) : List Char :=
  colapsarAux p rep l false

/-- Remove leading and trailing characters equal to `c`
(models Python `str.strip('c')`). -/
def stripChar (c : Char) (l : List Char) : List Char :=
  ((l.dropWhile (fun x => x = c)).reverse.dropWhile (fun x => x = c)).reverse

/-- `sanitizar_nome_arquivo` (proposta.py lines 114-127): replace invalid
filename characters by `_`, collapse whitespace runs of the stripped name
to `_`, collapse `_` runs, strip `_`, truncate to 50 characters. -/
def sanitizar_nome_arquivo (nome : String) : List Char :=
  let passo1 := nome.toList.map (fun c => if charInvalidoArquivo c then '_' else c)
  let passo2 := colapsar (fun c => c.isWhitespace) '_' (stripEspacos passo1)
  let passo3 := colapsar (fun c => c = '_') '_' passo2
  let passo4 := stripChar '_' passo3
  passo4.take 50

/-- Success flags for the external effects of the rendering pipeline:
`grafico_ok` — `gerar_grafico`'s matplotlib/filesystem work raises no
exception (proposta.py lines 161-388); `mkdir_ok` — `criar_diretorio_saida`
raises no exception (lines 108-112); `pdf_ok` — reportlab canvas
composition and the file write raise no exception (lines 596-939);
`arquivo_existe` — `os.path.exists` finds the written file (line 1023). -/
structure RenderEnv where
  grafico_ok : Bool
  mkdir_ok : Bool
  pdf_ok : Bool
  arquivo_existe : Bool

/-- `criar_proposta_pdf` (proposta.py lines 508-954): validate the global
name, compute the financial figures, render the chart and compose the PDF;
every exception is caught and turns the result into `None`. The numeric
work of the chart is modelled by `alturas_grafico`/`y_ticks`; its
external effects by `env.grafico_ok`. -/
def criar_proposta_pdf (g : Globals) (env : RenderEnv) : Option String :=
  match validar_nome_completo g.NOME with
  | none => none
  | some _nome_validado =>
    let _valores := calcular_valores_financeiros g
    if env.grafico_ok then
      if env.pdf_ok then
        some ("simulacao_" ++ String.mk (sanitizar_nome_arquivo g.NOME) ++ ".pdf")
      else none
    else none

/-- Input triple of `processar_proposta_webhook` (proposta.py line 956). -/
structure WebhookInput where
  nome_completo : String
  endereco : String
  valor_fatura : String

/-- Result dictionary of `processar_proposta_webhook`
(proposta.py lines 1028-1050). -/
structure WebhookResult where
  sucesso : Bool
  erro : Option String
  arquivo_path : Option String
  dados_processados : Option Parametros

/-- The tagged failure dictionary built by the `except` clause of
`processar_proposta_webhook` (proposta.py lines 1043-1050). -/
def falhaWebhook (msg : String) : WebhookResult :=
  { sucesso := false
    erro := some ("Erro ao processar proposta: " ++ msg)
    arquivo_path := none
    dados_processados := none }

/-- `processar_proposta_webhook` (proposta.py lines 956-1050): validate the
input, derive the parameters, save the module-level variables, overwrite
them with the derived values, generate the PDF, and restore the saved
values in the `finally` block; every exception is caught and yields the
tagged failure result. The returned pair is (result dictionary, final
state of the module-level variables). -/
def processar_proposta_webhook (g : Globals) (inp : WebhookInput)
    (env : RenderEnv) : WebhookResult × Globals :=
  if (pyStrip inp.nome_completo).length < 3 then
    (falhaWebhook "Nome completo deve ter pelo menos 3 caracteres", g)
  else if (pyStrip inp.endereco).length < 10 then
    (falhaWebhook "Endereço deve ter pelo menos 10 caracteres", g)
  else if inp.valor_fatura = "" then
    (falhaWebhook "Valor da fatura é obrigatório", g)
  else
    match pyFloat inp.valor_fatura with
    | none => (falhaWebhook "Valor da fatura deve ser um número válido", g)
    | some valor_float =>
      if valor_float ≤ 0 then
        (falhaWebhook "Valor da fatura deve ser um número válido", g)
      else
        match calcular_parametros_automaticos (pyStrip inp.nome_completo)
            (pyStrip inp.endereco) inp.valor_fatura with
        | none => (falhaWebhook "could not convert string to float", g)
        | some parametros_webhook =>
          let nome_original := g.NOME
          let endereco_original := g.ENDERECO
          let consumo_original := g.CONSUMO
          let taxa_original := g.TAXA_ILUMINACAO_PUBLICA
          let consumo_minimo_original := g.CONSUMO_MINIMO
          let g_webhook : Globals :=
            { NOME := parametros_webhook.nome
              ENDERECO := parametros_webhook.endereco
              CONSUMO := parametros_webhook.consumo
              TAXA_ILUMINACAO_PUBLICA :=
                parametros_webhook.taxa_iluminacao_publica
              CONSUMO_MINIMO := parametros_webhook.consumo_minimo }
          let resultado : WebhookResult :=
            if !env.mkdir_ok then falhaWebhook "Erro ao criar diretório"
            else
              match criar_proposta_pdf g_webhook env with
              | none => falhaWebhook "Falha na criação do arquivo PDF"
              | some arquivo_path =>
                if !env.arquivo_existe then
                  falhaWebhook "Arquivo PDF não foi criado corretamente"
                else
                  { sucesso := true
                    erro := none
                    arquivo_path := some arquivo_path
                    dados_processados := some parametros_webhook }
          let g_final : Globals :=
            { NOME := nome_original
              ENDERECO := endereco_original
              CONSUMO := consumo_original
              TAXA_ILUMINACAO_PUBLICA := taxa_original
              CONSUMO_MINIMO := consumo_minimo_original }
          (resultado, g_final)

/-- C1: for every valid bill amount B > 0, `calcular_parametros_automaticos`
derives consumption as the threshold-selected base fee subtracted from B,
divided by the unit tariff 1.138131 and rounded to the nearest integer
(Python `round`, half to even), back-solves the public-lighting fee as
B minus consumption times the tariff, and the reconciliation
`consumo * tarifa + taxa = B` holds exactly. -/
theorem C1_reconciliacao_parametros (n e : String) (B : ℚ) (hB : 0 < B) :
    (calcular_parametros_valor n e B).consumo =
      roundHalfEven ((B - taxa_base B) / TARIFA_ENERGISA) ∧
    (calcular_parametros_valor n e B).taxa_iluminacao_publica =
      B - ((calcular_parametros_valor n e B).consumo : ℚ) * TARIFA_ENERGISA ∧
    ((calcular_parametros_valor n e B).consumo : ℚ) * TARIFA_ENERGISA +
      (calcular_parametros_valor n e B).taxa_iluminacao_publica = B := by
  refine ⟨rfl, rfl, ?_⟩
  simp only [calcular_parametros_valor]
  ring

/-- Witness for C1 at the repository's own sample bill 439.85. -/
theorem C1_reconciliacao_parametros_witness :
    (0 : ℚ) < 439.85 ∧
    ((calcular_parametros_valor "" "" 439.85).consumo =
      roundHalfEven ((439.85 - taxa_base 439.85) / TARIFA_ENERGISA) ∧
    (calcular_parametros_valor "" "" 439.85).taxa_iluminacao_publica =
      439.85 - ((calcular_parametros_valor "" "" 439.85).consumo : ℚ) *
        TARIFA_ENERGISA ∧
    ((calcular_parametros_valor "" "" 439.85).consumo : ℚ) * TARIFA_ENERGISA +
      (calcular_parametros_valor "" "" 439.85).taxa_iluminacao_publica =
        439.85) :=
  ⟨by norm_num, C1_reconciliacao_parametros "" "" 439.85 (by norm_num)⟩

/-- C2: the minimum-consumption tier is the pure step function
30 / 50 / 100 of the bill amount with thresholds 300 and 500
(B=250 gives 30, B=450 gives 50, B=800 gives 100), and the base fee
subtracted before the consumption estimate is keyed by the same
thresholds: 42.90 / 61.67 / 92.51. -/
theorem C2_degraus_consumo_minimo (n e : String) (B : ℚ) :
    ((calcular_parametros_valor n e B).consumo_minimo =
      if B ≤ 300 then 30 else if B ≤ 500 then 50 else 100) ∧
    (taxa_base B =
      if B ≤ 300 then 42.90 else if B ≤ 500 then 61.67 else 92.51) ∧
    ((calcular_parametros_valor n e B).consumo =
      roundHalfEven ((B - taxa_base B) / TARIFA_ENERGISA)) ∧
    (calcular_parametros_valor "" "" 250).consumo_minimo = 30 ∧
    (calcular_parametros_valor "" "" 450).consumo_minimo = 50 ∧
    (calcular_parametros_valor "" "" 800).consumo_minimo = 100 := by
  refine ⟨rfl, ?_, rfl, by decide, by decide, by decide⟩
  unfold taxa_base
  split_ifs <;> first | rfl | linarith

/-- C3: in `calcular_valores_financeiros` the annual saving is exactly
twelve times the monthly discount, the five-year saving five times the
annual one, each of the four surcharge-scenario monthly savings adds
billable energy times the fixed surcharge rate to the monthly discount,
and the annual / five-year scenario figures are the times-12 and times-5
projections. -/
theorem C3_projecoes_economia (g : Globals) :
    (calcular_valores_financeiros g).energia_energia_a =
      (g.CONSUMO : ℚ) - (g.CONSUMO_MINIMO : ℚ) ∧
    (calcular_valores_financeiros g).economia_ano =
      (calcular_valores_financeiros g).valor_desconto * 12 ∧
    (calcular_valores_financeiros g).economia_5ano =
      (calcular_valores_financeiros g).economia_ano * 5 ∧
    (calcular_valores_financeiros g).economia_incidencia_bandeira_amarela =
      (calcular_valores_financeiros g).valor_desconto +
        (calcular_valores_financeiros g).energia_energia_a * 0.024181 ∧
    (calcular_valores_financeiros g).economia_incidencia_bandeira_vermelha_patamar_1 =
      (calcular_valores_financeiros g).valor_desconto +
        (calcular_valores_financeiros g).energia_energia_a * 0.057252 ∧
    (calcular_valores_financeiros g).economia_incidencia_bandeira_vermelha_patamar_2 =
      (calcular_valores_financeiros g).valor_desconto +
        (calcular_valores_financeiros g).energia_energia_a * 0.101047 ∧
    (calcular_valores_financeiros g).economia_incidencia_bandeira_escassez_hibrida =
      (calcular_valores_financeiros g).valor_desconto +
        (calcular_valores_financeiros g).energia_energia_a * 0.182160 ∧
    (calcular_valores_financeiros g).economia_anual_incidencia_bandeira_amarela =
      (calcular_valores_financeiros g).economia_incidencia_bandeira_amarela * 12 ∧
    (calcular_valores_financeiros g).economia_anual_incidencia_bandeira_vermelha_patamar_1 =
      (calcular_valores_financeiros g).economia_incidencia_bandeira_vermelha_patamar_1 * 12 ∧
    (calcular_valores_financeiros g).economia_anual_incidencia_bandeira_vermelha_patamar_2 =
      (calcular_valores_financeiros g).economia_incidencia_bandeira_vermelha_patamar_2 * 12 ∧
    (calcular_valores_financeiros g).economia_anual_incidencia_bandeira_escassez_hibrida =
      (calcular_valores_financeiros g).economia_incidencia_bandeira_escassez_hibrida * 12 ∧
    (calcular_valores_financeiros g).economia_5ano_incidencia_bandeira_amarela =
      (calcular_valores_financeiros g).economia_anual_incidencia_bandeira_amarela * 5 ∧
    (calcular_valores_financeiros g).economia_5ano_incidencia_bandeira_vermelha_patamar_1 =
      (calcular_valores_financeiros g).economia_anual_incidencia_bandeira_vermelha_patamar_1 * 5 ∧
    (calcular_valores_financeiros g).economia_5ano_incidencia_bandeira_vermelha_patamar_2 =
      (calcular_valores_financeiros g).economia_anual_incidencia_bandeira_vermelha_patamar_2 * 5 ∧
    (calcular_valores_financeiros g).economia_5ano_incidencia_bandeira_escassez_hibrida =
      (calcular_valores_financeiros g).economia_anual_incidencia_bandeira_escassez_hibrida * 5 :=
  ⟨rfl, rfl, rfl, rfl, rfl, rfl, rfl, rfl, rfl, rfl, rfl, rfl, rfl, rfl, rfl⟩

/-- C8: the distributor residual obtained by subtraction,
`fatura_distribuidora = (consumo * U + taxa) - (consumo - consumo_minimo) * U`,
equals `consumo_minimo * U + taxa` and therefore coincides with its
directly-computed counterpart `total_a_pagar_CGS`. -/
theorem C8_residuo_distribuidora (g : Globals) :
    (calcular_valores_financeiros g).fatura_distribuidora =
      (g.CONSUMO_MINIMO : ℚ) * TARIFA_ENERGISA +
        g.TAXA_ILUMINACAO_PUBLICA ∧
    (calcular_valores_financeiros g).fatura_distribuidora =
      (calcular_valores_financeiros g).total_a_pagar_CGS := by
  constructor <;> · simp only [calcular_valores_financeiros]; ring

/-- A non-zero segment's visual height is exactly the maximum of its true
value and 5% of the reference maximum. -/
theorem ajustar_altura_visual_eq_max (v m : ℚ) (h : v ≠ 0) :
    ajustar_altura_visual v m = max v (m * 0.05) := by
  simp only [ajustar_altura_visual, if_neg h]
  split_ifs with h2
  · exact (max_eq_right h2.le).symm
  · exact (max_eq_left (le_of_not_lt h2)).symm

/-- C6: in `gerar_grafico`, each non-zero lower segment of either bar is
displayed at the maximum of its true value and 5% of the larger bar's
total, a zero segment stays at zero, the second bar's lower segments get
the same visual heights as the first bar's, and the compensated top
segment makes each bar's visual heights sum to that bar's true total. -/
theorem C6_piso_visual_grafico (sem_geracao com_geracao
    consumo_minimo_energisa tax_ilu_pub : ℚ) :
    (tax_ilu_pub ≠ 0 →
      (alturas_grafico sem_geracao com_geracao consumo_minimo_energisa
        tax_ilu_pub).altura_iluminacao_visual =
      max tax_ilu_pub ((alturas_grafico sem_geracao com_geracao
        consumo_minimo_energisa tax_ilu_pub).max_value * 0.05)) ∧
    (tax_ilu_pub = 0 →
      (alturas_grafico sem_geracao com_geracao consumo_minimo_energisa
        tax_ilu_pub).altura_iluminacao_visual = 0) ∧
    (consumo_minimo_energisa ≠ 0 →
      (alturas_grafico sem_geracao com_geracao consumo_minimo_energisa
        tax_ilu_pub).altura_consumo_minimo_visual =
      max consumo_minimo_energisa ((alturas_grafico sem_geracao com_geracao
        consumo_minimo_energisa tax_ilu_pub).max_value * 0.05)) ∧
    (consumo_minimo_energisa = 0 →
      (alturas_grafico sem_geracao com_geracao consumo_minimo_energisa
        tax_ilu_pub).altura_consumo_minimo_visual = 0) ∧
    (alturas_grafico sem_geracao com_geracao consumo_minimo_energisa
      tax_ilu_pub).altura_iluminacao_visual_2 =
      (alturas_grafico sem_geracao com_geracao consumo_minimo_energisa
        tax_ilu_pub).altura_iluminacao_visual ∧
    (alturas_grafico sem_geracao com_geracao consumo_minimo_energisa
      tax_ilu_pub).altura_consumo_minimo_visual_2 =
      (alturas_grafico sem_geracao com_geracao consumo_minimo_energisa
        tax_ilu_pub).altura_consumo_minimo_visual ∧
    (alturas_grafico sem_geracao com_geracao consumo_minimo_energisa
      tax_ilu_pub).altura_iluminacao_visual +
      (alturas_grafico sem_geracao com_geracao consumo_minimo_energisa
        tax_ilu_pub).altura_consumo_minimo_visual +
      (alturas_grafico sem_geracao com_geracao consumo_minimo_energisa
        tax_ilu_pub).altura_concessionaria_visual = sem_geracao ∧
    (alturas_grafico sem_geracao com_geracao consumo_minimo_energisa
      tax_ilu_pub).altura_iluminacao_visual_2 +
      (alturas_grafico sem_geracao com_geracao consumo_minimo_energisa
        tax_ilu_pub).altura_consumo_minimo_visual_2 +
      (alturas_grafico sem_geracao com_geracao consumo_minimo_energisa
        tax_ilu_pub).altura_energia_a_visual = com_geracao := by
  refine ⟨?_, ?_, ?_, ?_, rfl, rfl, ?_, ?_⟩
  · intro h
    exact ajustar_altura_visual_eq_max tax_ilu_pub _ h
  · intro h
    simp [alturas_grafico, h, ajustar_altura_visual]
  · intro h
    exact ajustar_altura_visual_eq_max consumo_minimo_energisa _ h
  · intro h
    simp [alturas_grafico, h, ajustar_altura_visual]
  · simp only [alturas_grafico]
    ring
  · simp only [alturas_grafico]
    ring

/-- Witness for C6: the non-zero floor at (500, 300, 50, 10), the zero
case at (500, 300, 50, 0), and both bar totals at (500, 300, 50, 10). -/
theorem C6_piso_visual_grafico_witness :
    (alturas_grafico 500 300 50 10).altura_iluminacao_visual =
      max 10 ((alturas_grafico 500 300 50 10).max_value * 0.05) ∧
    (alturas_grafico 500 300 50 0).altura_iluminacao_visual = 0 ∧
    (alturas_grafico 500 300 50 10).altura_iluminacao_visual +
      (alturas_grafico 500 300 50 10).altura_consumo_minimo_visual +
      (alturas_grafico 500 300 50 10).altura_concessionaria_visual = 500 ∧
    (alturas_grafico 500 300 50 10).altura_iluminacao_visual_2 +
      (alturas_grafico 500 300 50 10).altura_consumo_minimo_visual_2 +
      (alturas_grafico 500 300 50 10).altura_energia_a_visual = 300 :=
  ⟨(C6_piso_visual_grafico 500 300 50 10).1 (by norm_num),
   (C6_piso_visual_grafico 500 300 50 0).2.1 rfl,
   (C6_piso_visual_grafico 500 300 50 10).2.2.2.2.2.2.1,
   (C6_piso_visual_grafico 500 300 50 10).2.2.2.2.2.2.2⟩

/-- Counterexample to C7: 200 and 350 are both below 400, yet
`gerar_grafico` gives them different tick arrays — below 300 the ticks are
the multiples of 50 up to the rounded-up maximum, not a fixed array. -/
theorem C7_contraexemplo_ticks :
    y_ticks 200 = [0, 50, 100, 150, 200] ∧
    y_ticks 350 = [0, 66.50, 133.00, 200.50, 267.00, 333.50, 400.00] ∧
    (200 : ℚ) < 400 ∧ (350 : ℚ) < 400 ∧
    y_ticks 200 ≠ y_ticks 350 := by
  have h5 : Int.toNat 5 = 5 := rfl
  refine ⟨by norm_num [y_ticks, List.range_succ, h5], by norm_num [y_ticks],
    by norm_num, by norm_num, by norm_num [y_ticks, List.range_succ, h5]⟩

/-- C7 amended: the y-axis ticks are determined solely by the larger bar
total in four regimes — below 300, the multiples of 50 from 0 up to the
total rounded up to a multiple of 50; from 300 up to 400, one fixed
seven-value array; from 400 up to 600, another fixed array; at 600 and
above, seven evenly spaced ticks from 0 to the total rounded up to the
next multiple of 100. -/
theorem C7_regimes_ticks (m : ℚ) :
    (m < 300 →
      y_ticks m = (List.range (⌈m / 50⌉ + 1).toNat).map (fun i : ℕ => (i : ℚ) * 50)) ∧
    (300 ≤ m → m < 400 →
      y_ticks m = [0, 66.50, 133.00, 200.50, 267.00, 333.50, 400.00]) ∧
    (400 ≤ m → m < 600 →
      y_ticks m = [0, 100.00, 200.00, 300.00, 400.00, 500.00, 600.00]) ∧
    (600 ≤ m →
      y_ticks m = [0, (⌈m / 100⌉ : ℚ) * 100 / 6, (⌈m / 100⌉ : ℚ) * 100 / 3,
        (⌈m / 100⌉ : ℚ) * 100 / 2, (⌈m / 100⌉ : ℚ) * 100 * 2 / 3,
        (⌈m / 100⌉ : ℚ) * 100 * 5 / 6, (⌈m / 100⌉ : ℚ) * 100]) := by
  refine ⟨?_, ?_, ?_, ?_⟩
  · intro h1
    simp only [y_ticks, if_pos h1]
  · intro h1 h2
    simp only [y_ticks, if_neg (not_lt.mpr h1), if_pos h2]
  · intro h1 h2
    have h3 : ¬ m < 300 := not_lt.mpr (by linarith)
    have h4 : ¬ m < 400 := not_lt.mpr h1
    simp only [y_ticks, if_neg h3, if_neg h4, if_pos h2]
  · intro h1
    have h3 : ¬ m < 300 := not_lt.mpr (by linarith)
    have h4 : ¬ m < 400 := not_lt.mpr (by linarith)
    have h5 : ¬ m < 600 := not_lt.mpr h1
    have h6 : List.range 7 = [0, 1, 2, 3, 4, 5, 6] := rfl
    simp only [y_ticks, if_neg h3, if_neg h4, if_neg h5, h6, List.map_cons,
      List.map_nil, List.cons.injEq, and_true]
    refine ⟨by push_cast; ring, by push_cast; ring, by push_cast; ring,
      by push_cast; ring, by push_cast; ring, by push_cast; ring,
      by push_cast; ring⟩

/-- Witness for C7 amended: one input in each of the four regimes. -/
theorem C7_regimes_ticks_witness :
    y_ticks 200 = [0, 50, 100, 150, 200] ∧
    y_ticks 350 = [0, 66.50, 133.00, 200.50, 267.00, 333.50, 400.00] ∧
    y_ticks 450 = [0, 100.00, 200.00, 300.00, 400.00, 500.00, 600.00] ∧
    y_ticks 610 = [0, 700 / 6, 700 / 3, 350, 1400 / 3, 1750 / 3, 700] :=
  ⟨((C7_regimes_ticks 200).1 (by norm_num)).trans (by
      have h5 : Int.toNat 5 = 5 := rfl
      norm_num [List.range_succ, h5]),
   (C7_regimes_ticks 350).2.1 (by norm_num) (by norm_num),
   (C7_regimes_ticks 450).2.2.1 (by norm_num) (by norm_num),
   ((C7_regimes_ticks 610).2.2.2 (by norm_num)).trans (by
      have hc : ⌈(61 : ℚ) / 10⌉ = 7 := by norm_num [Int.ceil_eq_iff]
      norm_num [hc])⟩

/-- The module-level variables returned by `processar_proposta_webhook`
always equal the pre-call values: every validation failure returns before
the save, and the `finally` block restores the saved originals on every
other path. -/
theorem processar_webhook_estado (g : Globals) (inp : WebhookInput)
    (env : RenderEnv) : (processar_proposta_webhook g inp env).2 = g := by
  unfold processar_proposta_webhook
  repeat' split <;> try rfl

/-- C9: every call of `processar_proposta_webhook` that reaches the point
where `NOME`, `ENDERECO`, `CONSUMO`, `TAXA_ILUMINACAO_PUBLICA` and
`CONSUMO_MINIMO` are saved (that is, passes all input validations and the
parameter derivation) restores them to their exact pre-call values by the
time the call returns, on success and on failure alike. -/
theorem C9_globais_restaurados (g : Globals) (inp : WebhookInput)
    (env : RenderEnv)
    (hnome : 3 ≤ (pyStrip inp.nome_completo).length)
    (hend : 10 ≤ (pyStrip inp.endereco).length)
    (hvf : inp.valor_fatura ≠ "")
    (hpos : ∃ v, pyFloat inp.valor_fatura = some v ∧ 0 < v)
    (hparams : (calcular_parametros_automaticos (pyStrip inp.nome_completo)
      (pyStrip inp.endereco) inp.valor_fatura).isSome = true) :
    (processar_proposta_webhook g inp env).2 = g :=
  processar_webhook_estado g inp env

/-- Concrete evaluation of the float parser on the sample bill string. -/
theorem pyFloat_550_75 : pyFloat "550.75" = some 550.75 := by
  have h1 : stripEspacos "550.75".toList = ['5', '5', '0', '.', '7', '5'] := by
    decide
  have h2 : List.dropWhile Char.isDigit ['5', '5', '0', '.', '7', '5'] =
      ['.', '7', '5'] := by decide
  have h3 : List.takeWhile Char.isDigit ['5', '5', '0', '.', '7', '5'] =
      ['5', '5', '0'] := by decide
  have h4 : digitsVal ['5', '5', '0'] = 550 := by decide
  have h5 : digitsVal ['7', '5'] = 75 := by decide
  have hcond : '.' = '.' ∧ (['7', '5'].all Char.isDigit) = true ∧
      (List.takeWhile Char.isDigit ['5', '5', '0', '.', '7', '5'] ≠ [] ∨
        ['7', '5'] ≠ ([] : List Char)) := by decide
  rw [pyFloat, h1]
  show pyFloatAux ['5', '5', '0', '.', '7', '5'] = some 550.75
  rw [pyFloatAux, h2]
  show (if '.' = '.' ∧ (['7', '5'].all Char.isDigit) = true ∧
      (List.takeWhile Char.isDigit ['5', '5', '0', '.', '7', '5'] ≠ [] ∨
        ['7', '5'] ≠ ([] : List Char)) then
    some ((digitsVal (List.takeWhile Char.isDigit
        ['5', '5', '0', '.', '7', '5']) : ℚ) +
      (digitsVal ['7', '5'] : ℚ) / 10 ^ (['7', '5'] : List Char).length)
    else none) = some 550.75
  rw [if_pos hcond, h3, h4, h5]
  norm_num

/-- Witness for C9: a concrete valid request, with the chart failing, still
restores the globals. -/
theorem C9_globais_restaurados_witness :
    (processar_proposta_webhook ⟨"a", "b", 0, 0, 30⟩
      ⟨"Marcos da Silva", "Rua das Flores, 124", "550.75"⟩
      ⟨false, true, true, true⟩).2 = ⟨"a", "b", 0, 0, 30⟩ :=
  C9_globais_restaurados ⟨"a", "b", 0, 0, 30⟩
    ⟨"Marcos da Silva", "Rua das Flores, 124", "550.75"⟩
    ⟨false, true, true, true⟩
    (by decide) (by decide) (by decide)
    ⟨550.75, pyFloat_550_75, by norm_num⟩ (by decide)

/-- A PDF path is only produced when both the chart rendering and the PDF
composition succeed. -/
theorem criar_proposta_pdf_flags (g : Globals) (env : RenderEnv)
    (path : String) (h : criar_proposta_pdf g env = some path) :
    env.grafico_ok = true ∧ env.pdf_ok = true := by
  unfold criar_proposta_pdf at h
  split at h
  · exact absurd h (by simp)
  · split_ifs at h with h1 h2
    · exact ⟨h1, h2⟩

/-- Every call of `processar_proposta_webhook` returns either the tagged
failure dictionary or the success dictionary with a file path. -/
theorem processar_webhook_forma (g : Globals) (inp : WebhookInput)
    (env : RenderEnv) :
    (∃ msg, (processar_proposta_webhook g inp env).1 = falhaWebhook msg) ∨
    (∃ path dados, (processar_proposta_webhook g inp env).1 =
      { sucesso := true, erro := none, arquivo_path := some path,
        dados_processados := some dados }) := by
  unfold processar_proposta_webhook
  dsimp only
  repeat' first
    | exact Or.inl ⟨_, rfl⟩
    | exact Or.inr ⟨_, _, rfl⟩
    | split

/-- A successful webhook result implies that every validation passed and
the chart was rendered. -/
theorem processar_webhook_sucesso_condicoes (g : Globals)
    (inp : WebhookInput) (env : RenderEnv)
    (h : (processar_proposta_webhook g inp env).1.sucesso = true) :
    ¬ (pyStrip inp.nome_completo).length < 3 ∧
    ¬ (pyStrip inp.endereco).length < 10 ∧
    (∃ v, pyFloat inp.valor_fatura = some v ∧ 0 < v) ∧
    env.grafico_ok = true := by
  unfold processar_proposta_webhook at h
  dsimp only at h
  repeat' split at h
  all_goals simp only [falhaWebhook] at h
  all_goals try exact absurd h Bool.false_ne_true
  rename_i hn he hvf xq v hv hle xp p hp hmk xs path hcp har
  exact ⟨hn, he, ⟨v, hv, lt_of_not_le hle⟩,
    (criar_proposta_pdf_flags _ env path hcp).1⟩

/-- C5: `processar_proposta_webhook` never raises — every outcome is the
success dictionary or the tagged failure dictionary with `sucesso = False`,
an error message and `arquivo_path = None`; a too-short name or address, a
non-numeric or non-positive bill amount, and a chart-rendering failure all
yield the tagged failure, and when `gerar_grafico` raises, no PDF path is
produced. -/
theorem C5_falha_etiquetada (g : Globals) (inp : WebhookInput)
    (env : RenderEnv) :
    ((processar_proposta_webhook g inp env).1.sucesso = false →
      (processar_proposta_webhook g inp env).1.arquivo_path = none ∧
      (processar_proposta_webhook g inp env).1.erro ≠ none) ∧
    ((processar_proposta_webhook g inp env).1.sucesso = true →
      (processar_proposta_webhook g inp env).1.erro = none ∧
      (processar_proposta_webhook g inp env).1.arquivo_path ≠ none) ∧
    ((pyStrip inp.nome_completo).length < 3 →
      (processar_proposta_webhook g inp env).1.sucesso = false) ∧
    ((pyStrip inp.endereco).length < 10 →
      (processar_proposta_webhook g inp env).1.sucesso = false) ∧
    (pyFloat inp.valor_fatura = none →
      (processar_proposta_webhook g inp env).1.sucesso = false) ∧
    (∀ v, pyFloat inp.valor_fatura = some v → v ≤ 0 →
      (processar_proposta_webhook g inp env).1.sucesso = false) ∧
    (env.grafico_ok = false →
      (processar_proposta_webhook g inp env).1.sucesso = false ∧
      (processar_proposta_webhook g inp env).1.arquivo_path = none) := by
  rcases processar_webhook_forma g inp env with ⟨msg, hm⟩ | ⟨path, dados, hm⟩
  · simp [hm, falhaWebhook]
  · have hc := processar_webhook_sucesso_condicoes g inp env (by rw [hm])
    refine ⟨?_, ?_, ?_, ?_, ?_, ?_, ?_⟩
    · rw [hm]
      intro hfalse
      cases hfalse
    · intro _
      rw [hm]
      exact ⟨rfl, by simp⟩
    · intro hlen
      exact absurd hlen hc.1
    · intro hlen
      exact absurd hlen hc.2.1
    · intro hnone
      rcases hc.2.2.1 with ⟨v, hv, _⟩
      rw [hnone] at hv
      cases hv
    · intro v hv hle
      rcases hc.2.2.1 with ⟨v2, hv2, hpos⟩
      rw [hv] at hv2
      have : v = v2 := by injection hv2
      exact absurd hpos (not_lt.mpr (this ▸ hle))
    · intro hg
      rw [hg] at hc
      exact absurd hc.2.2.2 (by simp)

/-- Witness for C5: a too-short name yields the tagged failure, and a
chart failure on otherwise valid input yields failure with no PDF path. -/
theorem C5_falha_etiquetada_witness :
    (processar_proposta_webhook ⟨"a", "b", 0, 0, 30⟩
      ⟨"ab", "Rua das Flores, 124", "550.75"⟩
      ⟨true, true, true, true⟩).1.sucesso = false ∧
    ((processar_proposta_webhook ⟨"a", "b", 0, 0, 30⟩
      ⟨"Marcos da Silva", "Rua das Flores, 124", "550.75"⟩
      ⟨false, true, true, true⟩).1.sucesso = false ∧
    (processar_proposta_webhook ⟨"a", "b", 0, 0, 30⟩
      ⟨"Marcos da Silva", "Rua das Flores, 124", "550.75"⟩
      ⟨false, true, true, true⟩).1.arquivo_path = none) :=
  ⟨(C5_falha_etiquetada ⟨"a", "b", 0, 0, 30⟩
      ⟨"ab", "Rua das Flores, 124", "550.75"⟩
      ⟨true, true, true, true⟩).2.2.1 (by decide),
   (C5_falha_etiquetada ⟨"a", "b", 0, 0, 30⟩
      ⟨"Marcos da Silva", "Rua das Flores, 124", "550.75"⟩
      ⟨false, true, true, true⟩).2.2.2.2.2.2 rfl⟩

/-- Python's `f"{x:,.2f}"` on a negative value is the minus sign followed
by the formatting of the absolute value. -/
theorem pyFormatMoeda_neg (x : ℚ) (h : x < 0) :
    pyFormatMoeda x = '-' :: pyFormatMoeda (-x) := by
  unfold pyFormatMoeda
  rw [abs_neg, if_pos h, if_neg (by linarith : ¬ (-x) < 0)]
  rfl

/-- `formatar_moeda` renders a negative number as the minus sign followed
by the rendering of its absolute value — the swap-and-split pipeline keeps
the leading minus intact. -/
theorem formatar_moeda_neg (x : ℚ) (h : x < 0) :
    formatar_moeda (some x) = "-" ++ formatar_moeda (some (-x)) := by
  simp only [formatar_moeda]
  rw [pyFormatMoeda_neg x h]
  simp only [List.map_cons]
  rw [show (if ('-' : Char) = ',' then 'X' else '-') = '-' from rfl]
  rw [show (if ('-' : Char) = '.' then ',' else '-') = '-' from rfl]
  rw [show (if ('-' : Char) = 'X' then '.' else '-') = '-' from rfl]
  rw [List.takeWhile_cons_of_pos (by decide)]
  rw [List.dropWhile_cons_of_pos (by decide)]
  rfl

/-- Python-format character list of 1234.5. -/
theorem pyFormatMoeda_1234_5 :
    pyFormatMoeda (1234.5 : ℚ) = ['1', ',', '2', '3', '4', '.', '5', '0'] := by
  have hc : roundHalfEven (|(1234.5 : ℚ)| * 100) = 123450 := by
    rw [abs_of_pos (by norm_num : (0 : ℚ) < 1234.5)]
    norm_num [roundHalfEven]
  unfold pyFormatMoeda
  rw [hc, if_neg (by norm_num : ¬ (1234.5 : ℚ) < 0)]
  decide

/-- Python-format character list of 0. -/
theorem pyFormatMoeda_zero :
    pyFormatMoeda (0 : ℚ) = ['0', '.', '0', '0'] := by
  have hc : roundHalfEven (|(0 : ℚ)| * 100) = 0 := by
    rw [abs_of_nonneg (le_refl (0 : ℚ))]
    norm_num [roundHalfEven]
  unfold pyFormatMoeda
  rw [hc, if_neg (by norm_num : ¬ (0 : ℚ) < 0)]
  decide

/-- Python-format character list of -1. -/
theorem pyFormatMoeda_neg_um :
    pyFormatMoeda (-1 : ℚ) = ['-', '1', '.', '0', '0'] := by
  have hc : roundHalfEven (|(-1 : ℚ)| * 100) = 100 := by
    rw [abs_of_nonpos (by norm_num : (-1 : ℚ) ≤ 0)]
    norm_num [roundHalfEven]
  unfold pyFormatMoeda
  rw [hc, if_pos (by norm_num : (-1 : ℚ) < 0)]
  decide

/-- Counterexample to C4: on the negative input -1, `formatar_moeda`
returns "-1,00", not the "0,00" fallback the claim asserts — the
`except (ValueError, TypeError)` clause is never reached for negative
numbers, which format with a minus sign. -/
theorem C4_contraexemplo_negativo :
    formatar_moeda (some (-1 : ℚ)) = "-1,00" ∧
    formatar_moeda (some (-1 : ℚ)) ≠ "0,00" := by
  have h : formatar_moeda (some (-1 : ℚ)) = "-1,00" := by
    simp only [formatar_moeda]
    rw [pyFormatMoeda_neg_um]
    decide
  exact ⟨h, by rw [h]; decide⟩

/-- C4 amended: `formatar_moeda` formats numeric values in the Brazilian
convention with `.` as thousands separator, `,` as decimal separator and
always two decimals (1234.5 gives "1.234,50", 0 gives "0,00"); non-numeric
input yields the "0,00" fallback; a negative value is formatted as the
minus sign followed by the Brazilian rendering of its absolute value, not
as "0,00". -/
theorem C4_moeda_brasileira :
    formatar_moeda (some (1234.5 : ℚ)) = "1.234,50" ∧
    formatar_moeda (some (0 : ℚ)) = "0,00" ∧
    formatar_moeda none = "0,00" ∧
    ∀ x : ℚ, x < 0 →
      formatar_moeda (some x) = "-" ++ formatar_moeda (some (-x)) := by
  refine ⟨?_, ?_, rfl, formatar_moeda_neg⟩
  · simp only [formatar_moeda]
    rw [pyFormatMoeda_1234_5]
    decide
  · simp only [formatar_moeda]
    rw [pyFormatMoeda_zero]
    decide

/-- Witness for C4 amended at the negative input -2. -/
theorem C4_moeda_brasileira_witness :
    (-2 : ℚ) < 0 ∧
    formatar_moeda (some (-2 : ℚ)) = "-" ++ formatar_moeda (some (2 : ℚ)) :=
  ⟨by norm_num, C4_moeda_brasileira.2.2.2 (-2) (by norm_num)⟩
/-- Replacing every comma by a dot adds the comma count to the dot count. -/
theorem count_map_virgula (l : List Char) :
    ((l.map (fun c => if c = ',' then '.' else c)).count '.') =
      l.count '.' + l.count ',' := by
  induction l with
  | nil => rfl
  | cons a t ih =>
    by_cases ha : a = ','
    · subst ha
      simp [List.count_cons, ih]
      omega
    · by_cases hb : a = '.'
      · subst hb
        simp [List.count_cons, ih]
        omega
      · simp [List.count_cons, ha, hb, ih]

/-- An unsigned float literal contains at most one dot: two dots make the
parser fail. -/
theorem pyFloatAux_dois_pontos (l : List Char) (h : 2 ≤ l.count '.') :
    pyFloatAux l = none := by
  have hsplit : l.takeWhile Char.isDigit ++ l.dropWhile Char.isDigit = l :=
    List.takeWhile_append_dropWhile Char.isDigit l
  have htake : (l.takeWhile Char.isDigit).count '.' = 0 := by
    rw [List.count_eq_zero]
    intro hmem
    exact absurd (List.mem_takeWhile_imp hmem) (by decide)
  cases hd : l.dropWhile Char.isDigit with
  | nil =>
    exfalso
    have hcount : l.count '.' = 0 := by
      rw [← hsplit, List.count_append, htake, hd]
      rfl
    omega
  | cons c rest =>
    rw [pyFloatAux, hd]
    dsimp only
    split_ifs with hcond
    · exfalso
      obtain ⟨hc, hall, -⟩ := hcond
      have hrest : rest.count '.' = 0 := by
        rw [List.count_eq_zero]
        intro hmem
        have := List.all_eq_true.mp hall _ hmem
        exact absurd this (by decide)
      have hcount : l.count '.' = 1 := by
        rw [← hsplit, List.count_append, htake, hd, List.count_cons, hrest, hc]
        rfl
      omega
    · rfl

/-- A signed float literal with two or more dots is rejected. -/
theorem pyFloatSigned_dois_pontos (l : List Char) (h : 2 ≤ l.count '.') :
    pyFloatSigned l = none := by
  cases l with
  | nil => rfl
  | cons c rest =>
    rw [pyFloatSigned]
    split_ifs with h1 h2
    · subst h1
      exact pyFloatAux_dois_pontos rest (by simpa [List.count_cons] using h)
    · subst h2
      rw [pyFloatAux_dois_pontos rest (by simpa [List.count_cons] using h)]
      rfl
    · exact pyFloatAux_dois_pontos (c :: rest) h

/-- C10: for every input string whose cleaned form (after removing `R`,
`$` and whitespace) contains both a dot and a comma — such as the
Brazilian-formatted "1.234,56" — `extrair_valor_monetario` raises
`ValueError` instead of returning a number: the comma is replaced by a
dot, leaving at least two dots, which `float` rejects. -/
theorem C10_separador_milhar_falha (s : String)
    (hdot : '.' ∈ limpar_monetario s)
    (hcomma : ',' ∈ limpar_monetario s) :
    extrair_valor_monetario s = none := by
  unfold extrair_valor_monetario
  dsimp only
  rw [if_pos hcomma]
  apply pyFloatSigned_dois_pontos
  rw [count_map_virgula]
  have h1 : 0 < (limpar_monetario s).count '.' :=
    List.count_pos_iff.mpr hdot
  have h2 : 0 < (limpar_monetario s).count ',' :=
    List.count_pos_iff.mpr hcomma
  omega

/-- Witness for C10 at the Brazilian-formatted amount "1.234,56". -/
theorem C10_separador_milhar_falha_witness :
    '.' ∈ limpar_monetario "1.234,56" ∧
    ',' ∈ limpar_monetario "1.234,56" ∧
    extrair_valor_monetario "1.234,56" = none :=
  ⟨by decide, by decide,
   C10_separador_milhar_falha "1.234,56" (by decide) (by decide)⟩
